import Mathlib

/-!
Verification development for the timeTracker repository.

The server keeps employees, time entries (work sessions), location
breadcrumbs and location departures in an in-memory storage
(`MemStorage`, server storage module), and exposes routes
(`server/routes.ts`) for clock-in, clock-out, breadcrumb reporting with
departure detection, and bulk synchronization of departures to an
external spreadsheet.

Shallow embedding conventions:
* JavaScript `Map` objects keyed by UUID are embedded as lists in
  insertion order (`Map` preserves insertion order; `set` on an existing
  key keeps its position, which we embed as an in-place `List.map`).
* Timestamps (`Date`) are natural numbers of milliseconds.
* Latitude/longitude are stored by the code as decimal strings and read
  back with `parseFloat`; we embed the numeric value directly as `ℚ`.
* `randomUUID()` and `new Date()` are nondeterministic inputs, so the
  embedded operations take the fresh id and the current time as
  explicit arguments.
* The departure distance `Math.sqrt(dlat^2 + dlng^2) * 111000` is
  irrational in general, so records carry the radicand
  `distanceSqDeg = dlat^2 + dlng^2` (the map `x ↦ √x * 111000` is
  injective on nonnegative inputs); the threshold comparison
  `Math.sqrt(d2) * 111000 > 100` is embedded as the equivalent exact
  rational comparison `d2 * 111000^2 > 100^2`, and the equivalence with
  the literal square-root form is proved (`exceedsThreshold_iff_sqrt`).
-/

namespace TimeTracker

/-- A `{lat, lng, address}` snapshot as stored in `clockInLocation`,
`clockOutLocation`, `fromLocation` and `toLocation` jsonb columns. -/
structure LocationSnapshot where
  lat : ℚ
  lng : ℚ
  address : String
  deriving DecidableEq

/-- Row of the `employees` table (shared schema). -/
structure Employee where
  id : String
  name : String
  email : String
  isActive : Bool
  createdAt : Nat
  deriving DecidableEq

/-- Row of the `time_entries` table (shared schema). -/
structure TimeEntry where
  id : String
  employeeId : String
  clockInTime : Nat
  clockOutTime : Option Nat
  clockInLocation : Option LocationSnapshot
  clockOutLocation : Option LocationSnapshot
  totalHours : Option ℚ
  isActive : Bool
  deriving DecidableEq

/-- Row of the `location_breadcrumbs` table (shared schema). -/
structure LocationBreadcrumb where
  id : String
  timeEntryId : String
  timestamp : Nat
  latitude : ℚ
  longitude : ℚ
  accuracy : Option ℚ
  address : Option String
  deriving DecidableEq

/-- Row of the `location_departures` table (shared schema).
`distanceSqDeg` carries the exact value `dlat^2 + dlng^2`; the code
stores the derived `Math.sqrt distanceSqDeg * 111000` as its `distance`
column. -/
structure LocationDeparture where
  id : String
  timeEntryId : String
  timestamp : Nat
  fromLocation : LocationSnapshot
  toLocation : LocationSnapshot
  distanceSqDeg : ℚ
  synced : Bool
  deriving DecidableEq

/-- The four maps held by `MemStorage`, embedded as lists in insertion
order. -/
structure MemStorage where
  employees : List Employee
  timeEntries : List TimeEntry
  locationBreadcrumbs : List LocationBreadcrumb
  locationDepartures : List LocationDeparture
  deriving DecidableEq

/-- Insert shape for `createTimeEntry` as invoked by the clock-in route
(the route sets `clockInTime` to the current time and `isActive` to
`true`; `clockOutTime` and `clockOutLocation` are absent from the
request body). -/
structure InsertTimeEntry where
  employeeId : String
  clockInTime : Nat
  isActive : Bool
  clockInLocation : Option LocationSnapshot
  deriving DecidableEq

/-- Insert shape accepted by `insertLocationBreadcrumbSchema`
(`id` and `timestamp` omitted, filled in by the storage). -/
structure InsertBreadcrumb where
  timeEntryId : String
  latitude : ℚ
  longitude : ℚ
  accuracy : Option ℚ
  address : Option String
  deriving DecidableEq

/-- Insert shape accepted by `insertLocationDepartureSchema`
(`id`, `timestamp`, `synced` omitted, filled in by the storage). -/
structure InsertDeparture where
  timeEntryId : String
  fromLocation : LocationSnapshot
  toLocation : LocationSnapshot
  distanceSqDeg : ℚ
  deriving DecidableEq

/-! ### Comparators used by the JavaScript sorts

`Array.prototype.sort` with comparator `(a, b) => a.timestamp - b.timestamp`
is a stable non-decreasing sort by timestamp; we embed it as Mathlib's
stable `List.insertionSort`. -/

/-- Non-decreasing order on breadcrumb timestamps. -/
def crumbLe (a b : LocationBreadcrumb) : Prop := a.timestamp ≤ b.timestamp

/-- Non-increasing order on breadcrumb timestamps (Drizzle
`orderBy(desc(timestamp))`). -/
def crumbGe (a b : LocationBreadcrumb) : Prop := b.timestamp ≤ a.timestamp

/-- Non-decreasing order on departure timestamps. -/
def depLe (a b : LocationDeparture) : Prop := a.timestamp ≤ b.timestamp

instance : DecidableRel crumbLe := fun a b => Nat.decLe a.timestamp b.timestamp

instance : DecidableRel crumbGe := fun a b => Nat.decLe b.timestamp a.timestamp

instance : DecidableRel depLe := fun a b => Nat.decLe a.timestamp b.timestamp

instance : IsTotal LocationBreadcrumb crumbLe := ⟨fun a b => Nat.le_total a.timestamp b.timestamp⟩

instance : IsTrans LocationBreadcrumb crumbLe := ⟨fun _ _ _ => Nat.le_trans⟩

instance : IsTotal LocationBreadcrumb crumbGe := ⟨fun a b => Nat.le_total b.timestamp a.timestamp⟩

instance : IsTrans LocationBreadcrumb crumbGe := ⟨fun _ _ _ h h' => Nat.le_trans h' h⟩

instance : IsTotal LocationDeparture depLe := ⟨fun a b => Nat.le_total a.timestamp b.timestamp⟩

instance : IsTrans LocationDeparture depLe := ⟨fun _ _ _ => Nat.le_trans⟩

/-! ### MemStorage operations (server storage module, `MemStorage`) -/

/-- `getTimeEntry(id)`: `this.timeEntries.get(id)`. -/
def getTimeEntry (s : MemStorage) (id : String) : Option TimeEntry :=
  s.timeEntries.find? (fun e => e.id == id)

/-- The predicate used by `getActiveTimeEntry`:
`entry.employeeId === employeeId && entry.isActive && !entry.clockOutTime`. -/
def isActiveEntryFor (employeeId : String) (e : TimeEntry) : Bool :=
  e.employeeId == employeeId && e.isActive && e.clockOutTime.isNone

/-- `getActiveTimeEntry(employeeId)`: first entry with matching employee
that is active and has no clock-out time. -/
def getActiveTimeEntry (s : MemStorage) (employeeId : String) : Option TimeEntry :=
  s.timeEntries.find? (isActiveEntryFor employeeId)

/-- `createTimeEntry(insertTimeEntry)`: fresh id, `clockOutTime`,
`clockOutLocation` and `totalHours` start `null`. -/
def createTimeEntry (s : MemStorage) (newId : String) (t : InsertTimeEntry) :
    MemStorage × TimeEntry :=
  let timeEntry : TimeEntry :=
    { id := newId, employeeId := t.employeeId, clockInTime := t.clockInTime,
      clockOutTime := none, clockInLocation := t.clockInLocation,
      clockOutLocation := none, totalHours := none, isActive := t.isActive }
  ({ s with timeEntries := s.timeEntries ++ [timeEntry] }, timeEntry)

/-- `updateTimeEntry(id, updates)`: looks the entry up by id and merges
the updates (`{...timeEntry, ...updates}`); the merge at each call site
is embedded as the patch function. -/
def updateTimeEntry (s : MemStorage) (id : String) (patch : TimeEntry → TimeEntry) :
    MemStorage × Option TimeEntry :=
  match s.timeEntries.find? (fun e => e.id == id) with
  | none => (s, none)
  | some e =>
      let updated := patch e
      ({ s with timeEntries := s.timeEntries.map (fun x => if x.id == id then updated else x) },
       some updated)

/-- `getBreadcrumbsByTimeEntry(timeEntryId)`: filter by session, then
`.sort((a, b) => a.timestamp - b.timestamp)` (stable, non-decreasing). -/
def getBreadcrumbsByTimeEntry (s : MemStorage) (tid : String) : List LocationBreadcrumb :=
  List.insertionSort crumbLe (s.locationBreadcrumbs.filter (fun b => b.timeEntryId == tid))

/-- `createBreadcrumb(insertBreadcrumb)`: fresh id, timestamp
`new Date()`, `address` and `accuracy` default to `null`. -/
def createBreadcrumb (s : MemStorage) (newId : String) (now : Nat) (b : InsertBreadcrumb) :
    MemStorage × LocationBreadcrumb :=
  let breadcrumb : LocationBreadcrumb :=
    { id := newId, timeEntryId := b.timeEntryId, timestamp := now,
      latitude := b.latitude, longitude := b.longitude,
      accuracy := b.accuracy, address := b.address }
  ({ s with locationBreadcrumbs := s.locationBreadcrumbs ++ [breadcrumb] }, breadcrumb)

/-- `getUnsyncedDepartures()`: all departures with `synced` false, in
map (insertion) order — no explicit sort in the source. -/
def getUnsyncedDepartures (s : MemStorage) : List LocationDeparture :=
  s.locationDepartures.filter (fun d => !d.synced)

/-- `createDeparture(insertDeparture)`: fresh id, timestamp
`new Date()`, `synced` starts `false`. -/
def createDeparture (s : MemStorage) (newId : String) (now : Nat) (d : InsertDeparture) :
    MemStorage × LocationDeparture :=
  let departure : LocationDeparture :=
    { id := newId, timeEntryId := d.timeEntryId, timestamp := now,
      fromLocation := d.fromLocation, toLocation := d.toLocation,
      distanceSqDeg := d.distanceSqDeg, synced := false }
  ({ s with locationDepartures := s.locationDepartures ++ [departure] }, departure)

/-- `markDepartureSynced(id)`: sets `synced = true` on the departure
with that id (keyed map update, embedded as in-place list map). -/
def markDepartureSynced (s : MemStorage) (id : String) : MemStorage :=
  { s with locationDepartures :=
      s.locationDepartures.map (fun d => if d.id == id then { d with synced := true } else d) }

/-! ### DrizzleStorage breadcrumb listing (`api/storage.ts`)

The SQL table is embedded as a list of rows in insertion order; `SELECT
... WHERE ... ORDER BY timestamp DESC` filters the rows and sorts them
by descending timestamp. -/

/-- `DrizzleStorage.getBreadcrumbsByTimeEntry`: filter by session,
`orderBy(desc(locationBreadcrumbsTable.timestamp))`. -/
def drizzleGetBreadcrumbsByTimeEntry (rows : List LocationBreadcrumb) (tid : String) :
    List LocationBreadcrumb :=
  List.insertionSort crumbGe (rows.filter (fun b => b.timeEntryId == tid))

/-! ### Routes (`server/routes.ts`) -/

/-- Error responses sent by the routes: 400 from schema validation,
400 conflict ("already clocked in" / "Already clocked out"),
404 not found. -/
inductive RouteError
  | validation
  | conflict
  | notFound
  deriving DecidableEq

/-- JavaScript `address || "Unknown location"`: `null`, absent and the
empty string are all falsy. -/
def orUnknown : Option String → String
  | none => "Unknown location"
  | some a => if a = "" then "Unknown location" else a

/-- The detector's threshold comparison
`Math.sqrt(dlat^2 + dlng^2) * 111000 > 100`, embedded as the equivalent
exact rational comparison on squares (see `exceedsThreshold_iff_sqrt`). -/
def exceedsThreshold (d2 : ℚ) : Bool :=
  decide ((100 : ℚ) ^ 2 < d2 * 111000 ^ 2)

/-- `toFixed(2)`: round to the nearest hundredth, ties toward the larger
value (ECMA-262 `Number.prototype.toFixed` picks the larger candidate). -/
def toFixed2 (q : ℚ) : ℚ :=
  ((⌊q * 100 + 1 / 2⌋ : ℤ) : ℚ) / 100

/-- Breadcrumb request body after JSON parsing: the insert schema
requires `latitude` and `longitude` (`accuracy` and `address` are
nullable), and the route injects `timeEntryId` from the URL. -/
structure BreadcrumbBody where
  latitude : Option ℚ
  longitude : Option ℚ
  accuracy : Option ℚ
  address : Option String
  deriving DecidableEq

/-- The departure (if any) produced by the detection step for previous
breadcrumb `prev` and newly created breadcrumb `crumb`: compare the
planar distance against the 100 m threshold and build the departure
with the from/to snapshots. `syncFails` tells whether the immediate
`syncToGoogleSheets` call fails; on success the route marks the
departure synced right away. -/
def detectDeparture (prev crumb : LocationBreadcrumb) (depId : String) (now : Nat)
    (syncFails : Bool) : List LocationDeparture :=
  let d2 := (crumb.latitude - prev.latitude) ^ 2 + (crumb.longitude - prev.longitude) ^ 2
  if exceedsThreshold d2 then
    [{ id := depId, timeEntryId := crumb.timeEntryId, timestamp := now,
       fromLocation := { lat := prev.latitude, lng := prev.longitude,
                         address := orUnknown prev.address },
       toLocation := { lat := crumb.latitude, lng := crumb.longitude,
                       address := orUnknown crumb.address },
       distanceSqDeg := d2, synced := !syncFails }]
  else []

/-- `POST /api/time-entries/:timeEntryId/breadcrumbs`: validate the
body, create the breadcrumb, re-read the session's breadcrumbs
(sorted), and if there are at least two, compare the second-to-last
with the new one; over the threshold, create a departure and attempt an
immediate sheet sync (marking it synced on success). Returns the final
storage and the response. No session lookup is performed. -/
def postBreadcrumb (s : MemStorage) (tid : String) (body : BreadcrumbBody)
    (crumbId depId : String) (now : Nat) (syncFails : Bool) :
    MemStorage × Except RouteError LocationBreadcrumb :=
  match body.latitude, body.longitude with
  | some lat, some lng =>
      let r1 := createBreadcrumb s crumbId now
        { timeEntryId := tid, latitude := lat, longitude := lng,
          accuracy := body.accuracy, address := body.address }
      let s1 := r1.1
      let breadcrumb := r1.2
      let allBreadcrumbs := getBreadcrumbsByTimeEntry s1 tid
      if h : 1 < allBreadcrumbs.length then
        let prevBreadcrumb := allBreadcrumbs[allBreadcrumbs.length - 2]
        let d2 := (breadcrumb.latitude - prevBreadcrumb.latitude) ^ 2 +
          (breadcrumb.longitude - prevBreadcrumb.longitude) ^ 2
        if exceedsThreshold d2 then
          let r2 := createDeparture s1 depId now
            { timeEntryId := tid,
              fromLocation := { lat := prevBreadcrumb.latitude, lng := prevBreadcrumb.longitude,
                                address := orUnknown prevBreadcrumb.address },
              toLocation := { lat := breadcrumb.latitude, lng := breadcrumb.longitude,
                              address := orUnknown breadcrumb.address },
              distanceSqDeg := d2 }
          let s2 := r2.1
          let s3 := if syncFails then s2 else markDepartureSynced s2 r2.2.id
          (s3, Except.ok breadcrumb)
        else (s1, Except.ok breadcrumb)
      else (s1, Except.ok breadcrumb)
  | _, _ => (s, Except.error RouteError.validation)

/-- `POST /api/time-entries/clock-in`: reject when the employee already
has an active entry, otherwise create one with `clockInTime = now` and
`isActive = true`. -/
def clockIn (s : MemStorage) (employeeId : String) (loc : Option LocationSnapshot)
    (newId : String) (now : Nat) : MemStorage × Except RouteError TimeEntry :=
  match getActiveTimeEntry s employeeId with
  | some _ => (s, Except.error RouteError.conflict)
  | none =>
      let r := createTimeEntry s newId
        { employeeId := employeeId, clockInTime := now, isActive := true,
          clockInLocation := loc }
      (r.1, Except.ok r.2)

/-- `POST /api/time-entries/:id/clock-out`: 404 when the entry does not
exist, conflict when it already has a clock-out time, otherwise close
it with `totalHours = ((now - clockInTime) / 3600000).toFixed(2)` and
`isActive = false`. -/
def clockOut (s : MemStorage) (id : String) (loc : Option LocationSnapshot) (now : Nat) :
    MemStorage × Except RouteError TimeEntry :=
  match getTimeEntry s id with
  | none => (s, Except.error RouteError.notFound)
  | some timeEntry =>
      match timeEntry.clockOutTime with
      | some _ => (s, Except.error RouteError.conflict)
      | none =>
          let totalHours := toFixed2 (((now : ℚ) - (timeEntry.clockInTime : ℚ)) / (1000 * 60 * 60))
          let r := updateTimeEntry s id (fun e =>
            { e with clockOutTime := some now, clockOutLocation := loc,
                     totalHours := some totalHours, isActive := false })
          match r.2 with
          | some updated => (r.1, Except.ok updated)
          | none => (r.1, Except.error RouteError.notFound)

/-- One row of the `results` array built by `POST /api/sync-departures`
(broadcast in the `SYNC_COMPLETE` event): id, success flag, and the
error message for failures. -/
structure SyncResult where
  id : String
  success : Bool
  error : Option String
  deriving DecidableEq

/-- The JSON body answered by `POST /api/sync-departures`. -/
structure SyncResponse where
  synced : Nat
  failed : Nat
  deriving DecidableEq

/-- The `for (const departure of unsyncedDepartures)` loop: publish each
departure (`fails id = some msg` embeds a `syncToGoogleSheets`
rejection with message `msg`), mark it synced on success, and record a
per-departure result either way. -/
def bulkSyncLoop (fails : String → Option String) :
    List LocationDeparture → MemStorage → List SyncResult → MemStorage × List SyncResult
  | [], s, results => (s, results)
  | d :: rest, s, results =>
      match fails d.id with
      | none =>
          bulkSyncLoop fails rest (markDepartureSynced s d.id)
            (results ++ [{ id := d.id, success := true, error := none }])
      | some msg =>
          bulkSyncLoop fails rest s
            (results ++ [{ id := d.id, success := false, error := some msg }])

/-- `POST /api/sync-departures`: snapshot the unsynced departures, run
the loop, and answer with the success/failure counts. -/
def syncDepartures (s : MemStorage) (fails : String → Option String) :
    MemStorage × List SyncResult × SyncResponse :=
  let unsynced := getUnsyncedDepartures s
  let r := bulkSyncLoop fails unsynced s []
  (r.1, r.2,
   { synced := (r.2.filter (fun x => x.success)).length,
     failed := (r.2.filter (fun x => !x.success)).length })

/-! ### Statement apparatus: invariants and mutation sequences -/

/-- The spec invariant "at most one active Session per Worker at any
time", read on the storage state. -/
def atMostOneActive (s : MemStorage) : Prop :=
  ∀ w : String, (s.timeEntries.filter (isActiveEntryFor w)).length ≤ 1

/-- Storage state holds a synced departure with the given id. -/
def syncedIn (s : MemStorage) (id : String) : Prop :=
  ∃ d ∈ s.locationDepartures, d.id = id ∧ d.synced = true

/-- The mutating storage operations (employee updates never touch the
departure map and are omitted; `updateTimeEntry` carries an arbitrary
patch, which subsumes every `Partial<TimeEntry>` spread the routes
perform). -/
inductive StorageOp
  | createTimeEntry (newId : String) (t : InsertTimeEntry)
  | updateTimeEntry (id : String) (patch : TimeEntry → TimeEntry)
  | createBreadcrumb (newId : String) (now : Nat) (b : InsertBreadcrumb)
  | createDeparture (newId : String) (now : Nat) (d : InsertDeparture)
  | markDepartureSynced (id : String)

/-- Apply one storage operation to the state. -/
def applyOp (s : MemStorage) : StorageOp → MemStorage
  | StorageOp.createTimeEntry newId t => (createTimeEntry s newId t).1
  | StorageOp.updateTimeEntry id patch => (updateTimeEntry s id patch).1
  | StorageOp.createBreadcrumb newId now b => (createBreadcrumb s newId now b).1
  | StorageOp.createDeparture newId now d => (createDeparture s newId now d).1
  | StorageOp.markDepartureSynced id => markDepartureSynced s id

/-- Apply a sequence of storage operations, oldest first. -/
def runOps (s : MemStorage) (ops : List StorageOp) : MemStorage :=
  ops.foldl applyOp s

/-! ### Concrete sample data (used by witnesses and counterexamples) -/

/-- A storage with no data at all. -/
def emptyStorage : MemStorage :=
  { employees := [], timeEntries := [], locationBreadcrumbs := [], locationDepartures := [] }

/-- Breadcrumb of session `t1` at (40, -75), captured at t = 1000, no
address recorded. -/
def crumbA : LocationBreadcrumb :=
  { id := "b1", timeEntryId := "t1", timestamp := 1000, latitude := 40, longitude := -75,
    accuracy := none, address := none }

/-- Breadcrumb of session `t1` at (40.001, -75), captured at t = 2000:
0.001 degrees (≈ 111 m) north of `crumbA`. -/
def crumbB : LocationBreadcrumb :=
  { id := "b2", timeEntryId := "t1", timestamp := 2000, latitude := 40 + 1 / 1000,
    longitude := -75, accuracy := none, address := some "Second site" }

/-- Storage holding only `crumbA`. -/
def storageOneCrumb : MemStorage :=
  { emptyStorage with locationBreadcrumbs := [crumbA] }

/-- Storage holding `crumbA` then `crumbB`. -/
def storageTwoCrumbs : MemStorage :=
  { emptyStorage with locationBreadcrumbs := [crumbA, crumbB] }

/-- Valid request body at (40, -75), no address. -/
def bodyOk : BreadcrumbBody :=
  { latitude := some 40, longitude := some (-75), accuracy := none, address := none }

/-- Valid request body at (40.001, -75) — ≈ 111 m from `crumbA`. -/
def bodyFar : BreadcrumbBody :=
  { latitude := some (40 + 1 / 1000), longitude := some (-75), accuracy := none,
    address := none }

/-- Valid request body at (40.00105, -75) — ≈ 5.5 m past `crumbB`. -/
def bodyNear : BreadcrumbBody :=
  { latitude := some (40 + 105 / 100000), longitude := some (-75), accuracy := none,
    address := none }

/-- Request body missing its latitude: fails the insert schema. -/
def bodyBad : BreadcrumbBody :=
  { latitude := none, longitude := some (-75), accuracy := none, address := none }

/-- An open time entry for employee `e1`, clocked in at t = 0. -/
def openEntry : TimeEntry :=
  { id := "t1", employeeId := "e1", clockInTime := 0, clockOutTime := none,
    clockInLocation := none, clockOutLocation := none, totalHours := none, isActive := true }

/-- Storage holding only `openEntry`. -/
def storageOpenEntry : MemStorage :=
  { emptyStorage with timeEntries := [openEntry] }

/-- An unsynced departure at t = 100. -/
def depA : LocationDeparture :=
  { id := "d1", timeEntryId := "t1", timestamp := 100,
    fromLocation := { lat := 40, lng := -75, address := "Unknown location" },
    toLocation := { lat := 40 + 1 / 1000, lng := -75, address := "Unknown location" },
    distanceSqDeg := (1 / 1000) ^ 2, synced := false }

/-- A synced departure at t = 200. -/
def depB : LocationDeparture :=
  { id := "d2", timeEntryId := "t1", timestamp := 200,
    fromLocation := { lat := 40 + 1 / 1000, lng := -75, address := "Unknown location" },
    toLocation := { lat := 40 + 2 / 1000, lng := -75, address := "Unknown location" },
    distanceSqDeg := (1 / 1000) ^ 2, synced := true }

/-- Storage holding `depA` (unsynced) then `depB` (synced). -/
def storageTwoDeps : MemStorage :=
  { emptyStorage with locationDepartures := [depA, depB] }

/-! ### Helper lemmas -/

/-- The embedded threshold comparison on squares coincides with the
code's literal `Math.sqrt(d2) * 111000 > 100`. -/
theorem exceedsThreshold_iff_sqrt (d2 : ℚ) :
    exceedsThreshold d2 = true ↔ (100 : ℝ) < Real.sqrt ((d2 : ℝ)) * 111000 := by
  have h111 : (0 : ℝ) < 111000 := by norm_num
  have h1 : ((100 : ℝ) < Real.sqrt ((d2 : ℝ)) * 111000) ↔
      ((100 : ℝ) / 111000 < Real.sqrt ((d2 : ℝ))) := (div_lt_iff₀ h111).symm
  have h2 : ((100 : ℝ) / 111000 < Real.sqrt ((d2 : ℝ))) ↔
      ((100 : ℝ) / 111000) ^ 2 < ((d2 : ℝ)) := Real.lt_sqrt (by positivity)
  have h3 : (((100 : ℝ) / 111000) ^ 2 < ((d2 : ℝ))) ↔
      ((100 : ℝ) ^ 2 < ((d2 : ℝ)) * 111000 ^ 2) := by
    rw [div_pow, div_lt_iff₀ (by positivity)]
  have h4 : ((100 : ℝ) ^ 2 < ((d2 : ℝ)) * 111000 ^ 2) ↔
      ((100 : ℚ) ^ 2 < d2 * 111000 ^ 2) := by
    constructor
    · intro h; exact_mod_cast h
    · intro h; exact_mod_cast h
  rw [exceedsThreshold, decide_eq_true_iff]
  exact (((h1.trans h2).trans h3).trans h4).symm

/-- `(l ++ [x])[length - 2]` is the last element of `l`. -/
theorem getElem_append_sub_two {α : Type} (l : List α) (x p : α) (h : l.getLast? = some p)
    (hlt : 1 < (l ++ [x]).length) :
    (l ++ [x])[(l ++ [x]).length - 2] = p := by
  have hne : l ≠ [] := by rintro rfl; simp at h
  have hl : 0 < l.length := List.length_pos.2 hne
  have hidx : (l ++ [x]).length - 2 = l.length - 1 := by simp
  rw [List.getElem_append_left]
  · simp only [hidx]
    rw [← List.getLast_eq_getElem l hne]
    rw [List.getLast?_eq_getLast l hne] at h
    exact (Option.some_inj.1 h)
  · omega

/-- Appending an element that every earlier element precedes keeps the
breadcrumb list sorted. -/
theorem sorted_append_singleton (l : List LocationBreadcrumb) (c : LocationBreadcrumb)
    (hs : List.Sorted crumbLe l) (hf : ∀ b ∈ l, b.timestamp ≤ c.timestamp) :
    List.Sorted crumbLe (l ++ [c]) := by
  refine List.pairwise_append.2 ⟨hs, List.pairwise_singleton _ _, ?_⟩
  intro a ha b hb
  simp only [List.mem_singleton] at hb
  subst hb
  exact hf a ha

/-- Marking a departure id is the identity on a list where every
departure with that id is already synced (keyed-map no-op). -/
theorem mark_map_eq_self (l : List LocationDeparture) (id : String)
    (h : ∀ d ∈ l, d.id = id → d.synced = true) :
    l.map (fun d => if d.id == id then { d with synced := true } else d) = l := by
  induction l with
  | nil => rfl
  | cons a t ih =>
      simp only [List.map_cons]
      have ha : (if a.id == id then { a with synced := true } else a) = a := by
        by_cases hc : a.id = id
        · have hs := h a (List.mem_cons_self a t) hc
          obtain ⟨i1, i2, i3, i4, i5, i6, i7⟩ := a
          simp only at hs
          simp [beq_iff_eq, hc, hs]
        · simp [beq_iff_eq, hc]
      rw [ha, ih (fun d hd hdid => h d (List.mem_cons_of_mem a hd) hdid)]

/-- Listing the breadcrumbs of a session after appending a fresh,
latest breadcrumb of that session: the stable non-decreasing sort
leaves the already-sorted prior breadcrumbs in place and the new one at
the end. -/
theorem listing_append (s : MemStorage) (tid : String) (c : LocationBreadcrumb)
    (hc : c.timeEntryId = tid)
    (hsorted : List.Sorted crumbLe (s.locationBreadcrumbs.filter (fun b => b.timeEntryId == tid)))
    (hfresh : ∀ b ∈ s.locationBreadcrumbs.filter (fun b => b.timeEntryId == tid),
      b.timestamp ≤ c.timestamp) :
    getBreadcrumbsByTimeEntry { s with locationBreadcrumbs := s.locationBreadcrumbs ++ [c] } tid
      = s.locationBreadcrumbs.filter (fun b => b.timeEntryId == tid) ++ [c] := by
  unfold getBreadcrumbsByTimeEntry
  have hfilter : ((s.locationBreadcrumbs ++ [c]).filter (fun b => b.timeEntryId == tid))
      = s.locationBreadcrumbs.filter (fun b => b.timeEntryId == tid) ++ [c] := by
    rw [List.filter_append]
    simp [hc]
  simp only [hfilter]
  exact List.Sorted.insertionSort_eq (sorted_append_singleton _ _ hsorted hfresh)

/-- Characterization of the breadcrumb route when the session had no
prior breadcrumb: the breadcrumb is appended and nothing else happens. -/
theorem postBreadcrumb_nil (s : MemStorage) (tid : String) (body : BreadcrumbBody)
    (crumbId depId : String) (now : Nat) (syncFails : Bool) (lat lng : ℚ)
    (hlat : body.latitude = some lat) (hlng : body.longitude = some lng)
    (hnil : s.locationBreadcrumbs.filter (fun b => b.timeEntryId == tid) = []) :
    postBreadcrumb s tid body crumbId depId now syncFails =
      ({ s with locationBreadcrumbs := s.locationBreadcrumbs ++
          [{ id := crumbId, timeEntryId := tid, timestamp := now, latitude := lat,
             longitude := lng, accuracy := body.accuracy, address := body.address }] },
       Except.ok
         { id := crumbId, timeEntryId := tid, timestamp := now, latitude := lat,
           longitude := lng, accuracy := body.accuracy, address := body.address }) := by
  have hlist := listing_append s tid
    { id := crumbId, timeEntryId := tid, timestamp := now, latitude := lat,
      longitude := lng, accuracy := body.accuracy, address := body.address }
    rfl (by rw [hnil]; exact List.sorted_nil) (by rw [hnil]; intro b hb; cases hb)
  rw [hnil] at hlist
  unfold postBreadcrumb
  rw [hlat, hlng]
  simp only [createBreadcrumb, hlist]
  rfl

/-- Characterization of the breadcrumb route when the session already
has breadcrumbs: the new breadcrumb is appended, and the departure list
is extended by the outcome of detection against the latest prior
breadcrumb only. -/
theorem postBreadcrumb_detect (s : MemStorage) (tid : String) (body : BreadcrumbBody)
    (crumbId depId : String) (now : Nat) (syncFails : Bool) (lat lng : ℚ)
    (prev : LocationBreadcrumb)
    (hlat : body.latitude = some lat) (hlng : body.longitude = some lng)
    (hsorted : List.Sorted crumbLe (s.locationBreadcrumbs.filter (fun b => b.timeEntryId == tid)))
    (hfresh : ∀ b ∈ s.locationBreadcrumbs.filter (fun b => b.timeEntryId == tid),
      b.timestamp ≤ now)
    (hprev : (s.locationBreadcrumbs.filter (fun b => b.timeEntryId == tid)).getLast? = some prev)
    (hdepid : ∀ d ∈ s.locationDepartures, d.id ≠ depId) :
    postBreadcrumb s tid body crumbId depId now syncFails =
      ({ s with
          locationBreadcrumbs := s.locationBreadcrumbs ++
            [{ id := crumbId, timeEntryId := tid, timestamp := now, latitude := lat,
               longitude := lng, accuracy := body.accuracy, address := body.address }],
          locationDepartures := s.locationDepartures ++
            detectDeparture prev
              { id := crumbId, timeEntryId := tid, timestamp := now, latitude := lat,
                longitude := lng, accuracy := body.accuracy, address := body.address }
              depId now syncFails },
       Except.ok
         { id := crumbId, timeEntryId := tid, timestamp := now, latitude := lat,
           longitude := lng, accuracy := body.accuracy, address := body.address }) := by
  have hlist := listing_append s tid
    { id := crumbId, timeEntryId := tid, timestamp := now, latitude := lat,
      longitude := lng, accuracy := body.accuracy, address := body.address }
    rfl hsorted hfresh
  have hne : s.locationBreadcrumbs.filter (fun b => b.timeEntryId == tid) ≠ [] := by
    intro hempty
    rw [hempty] at hprev
    simp at hprev
  have hlpos : 0 < (s.locationBreadcrumbs.filter (fun b => b.timeEntryId == tid)).length :=
    List.length_pos.2 hne
  have hlen : 1 < ((s.locationBreadcrumbs.filter (fun b => b.timeEntryId == tid)) ++
      [({ id := crumbId, timeEntryId := tid, timestamp := now, latitude := lat,
          longitude := lng, accuracy := body.accuracy, address := body.address } :
        LocationBreadcrumb)]).length := by
    rw [List.length_append]
    simp only [List.length_singleton]
    omega
  have hget := getElem_append_sub_two
    (s.locationBreadcrumbs.filter (fun b => b.timeEntryId == tid))
    ({ id := crumbId, timeEntryId := tid, timestamp := now, latitude := lat,
       longitude := lng, accuracy := body.accuracy, address := body.address } :
      LocationBreadcrumb)
    prev hprev hlen
  unfold postBreadcrumb
  rw [hlat, hlng]
  simp only [createBreadcrumb, hlist]
  rw [dif_pos hlen]
  simp only [hget]
  by_cases hth : exceedsThreshold ((lat - prev.latitude) ^ 2 + (lng - prev.longitude) ^ 2) = true
  · rw [if_pos hth]
    have hdet : detectDeparture prev
        { id := crumbId, timeEntryId := tid, timestamp := now, latitude := lat,
          longitude := lng, accuracy := body.accuracy, address := body.address }
        depId now syncFails =
        [{ id := depId, timeEntryId := tid, timestamp := now,
           fromLocation := { lat := prev.latitude, lng := prev.longitude,
                             address := orUnknown prev.address },
           toLocation := { lat := lat, lng := lng, address := orUnknown body.address },
           distanceSqDeg := (lat - prev.latitude) ^ 2 + (lng - prev.longitude) ^ 2,
           synced := !syncFails }] := by
      simp only [detectDeparture]
      rw [if_pos hth]
    rw [hdet]
    have hold := mark_map_eq_self s.locationDepartures depId
      (fun d hd hdid => absurd hdid (hdepid d hd))
    cases syncFails with
    | true =>
        simp only [createDeparture, if_true]
        rfl
    | false =>
        simp only [createDeparture, Bool.false_eq_true, if_false, markDepartureSynced,
          List.map_append, hold, List.map_cons, List.map_nil, beq_self_eq_true, if_true]
        rfl
  · rw [if_neg hth]
    have hdet : detectDeparture prev
        { id := crumbId, timeEntryId := tid, timestamp := now, latitude := lat,
          longitude := lng, accuracy := body.accuracy, address := body.address }
        depId now syncFails = [] := by
      simp only [detectDeparture]
      rw [if_neg hth]
    rw [hdet, List.append_nil]

/-- In a sorted breadcrumb list, every element's timestamp is at most
the last element's. -/
theorem sorted_all_le_getLast (l : List LocationBreadcrumb) (p : LocationBreadcrumb)
    (hs : List.Sorted crumbLe l) (hp : l.getLast? = some p) :
    ∀ b ∈ l, b.timestamp ≤ p.timestamp := by
  induction l with
  | nil => intro b hb; cases hb
  | cons a t ih =>
      intro b hb
      cases t with
      | nil =>
          have hap : a = p := by simpa using hp
          have hba : b = a := by simpa using hb
          rw [hba, hap]
      | cons c u =>
          rw [List.getLast?_cons_cons] at hp
          have hs' := List.pairwise_cons.1 hs
          rcases List.mem_cons.1 hb with rfl | hb'
          · exact hs'.1 p (List.mem_of_mem_getLast? hp)
          · exact ih hs'.2 hp b hb'

/-! ### Claims -/

/-- Claim C1: for every append of a breadcrumb to a session that
already has at least one breadcrumb, the distance between the prior
breadcrumb and the new one is computed as
`sqrt((lat2-lat1)^2 + (lng2-lng1)^2) * 111000`, and exactly one
departure — carrying the from/to snapshots and this computed distance —
is created when that distance strictly exceeds the 100 m threshold;
at or below the threshold no departure is created. -/
theorem claim_C1_departure_threshold
    (s : MemStorage) (tid : String) (body : BreadcrumbBody) (crumbId depId : String)
    (now : Nat) (syncFails : Bool) (lat lng : ℚ) (prev : LocationBreadcrumb)
    (hlat : body.latitude = some lat) (hlng : body.longitude = some lng)
    (hsorted : List.Sorted crumbLe (s.locationBreadcrumbs.filter (fun b => b.timeEntryId == tid)))
    (hfresh : ∀ b ∈ s.locationBreadcrumbs.filter (fun b => b.timeEntryId == tid),
      b.timestamp ≤ now)
    (hprev : (s.locationBreadcrumbs.filter (fun b => b.timeEntryId == tid)).getLast? = some prev)
    (hdepid : ∀ d ∈ s.locationDepartures, d.id ≠ depId) :
    ((100 : ℝ) < Real.sqrt ((((lat - prev.latitude) ^ 2 + (lng - prev.longitude) ^ 2 : ℚ) : ℝ))
          * 111000 →
        (postBreadcrumb s tid body crumbId depId now syncFails).1.locationDepartures =
          s.locationDepartures ++
            [{ id := depId, timeEntryId := tid, timestamp := now,
               fromLocation := { lat := prev.latitude, lng := prev.longitude,
                                 address := orUnknown prev.address },
               toLocation := { lat := lat, lng := lng, address := orUnknown body.address },
               distanceSqDeg := (lat - prev.latitude) ^ 2 + (lng - prev.longitude) ^ 2,
               synced := !syncFails }]) ∧
    (Real.sqrt ((((lat - prev.latitude) ^ 2 + (lng - prev.longitude) ^ 2 : ℚ) : ℝ)) * 111000
          ≤ 100 →
        (postBreadcrumb s tid body crumbId depId now syncFails).1.locationDepartures =
          s.locationDepartures) := by
  rw [postBreadcrumb_detect s tid body crumbId depId now syncFails lat lng prev
    hlat hlng hsorted hfresh hprev hdepid]
  constructor
  · intro hgt
    have hth : exceedsThreshold ((lat - prev.latitude) ^ 2 + (lng - prev.longitude) ^ 2)
        = true := (exceedsThreshold_iff_sqrt _).2 hgt
    simp only [detectDeparture]
    rw [if_pos hth]
  · intro hle
    have hth : ¬ exceedsThreshold ((lat - prev.latitude) ^ 2 + (lng - prev.longitude) ^ 2)
        = true := by
      rw [exceedsThreshold_iff_sqrt]
      exact not_lt.2 hle
    simp only [detectDeparture]
    rw [if_neg hth, List.append_nil]

/-- Witness for C1 at a concrete input: appending `bodyFar` (≈ 111 m
away) to the session holding only `crumbA` creates exactly one
departure with the expected snapshots and distance. -/
theorem claim_C1_witness :
    (postBreadcrumb storageOneCrumb "t1" bodyFar "b2" "d1" 2000 true).1.locationDepartures =
      [{ id := "d1", timeEntryId := "t1", timestamp := 2000,
         fromLocation := { lat := 40, lng := -75, address := "Unknown location" },
         toLocation := { lat := 40 + 1 / 1000, lng := -75, address := "Unknown location" },
         distanceSqDeg := (40 + 1 / 1000 - 40 : ℚ) ^ 2 + (-75 - -75 : ℚ) ^ 2,
         synced := false }] := by
  have h := claim_C1_departure_threshold storageOneCrumb "t1" bodyFar "b2" "d1" 2000 true
    (40 + 1 / 1000) (-75) crumbA rfl rfl (by decide) (by decide) rfl (by decide)
  have hgt := (exceedsThreshold_iff_sqrt
    ((40 + 1 / 1000 - crumbA.latitude) ^ 2 + (-75 - crumbA.longitude : ℚ) ^ 2)).1
    (by rw [exceedsThreshold, decide_eq_true_iff]; norm_num [crumbA])
  rw [h.1 hgt]
  simp [storageOneCrumb, emptyStorage, crumbA, bodyFar, orUnknown]

/-- Claim C2: for every breadcrumb append into a session with two or
more existing breadcrumbs, the `from` snapshot of any created departure
is taken from the breadcrumb chronologically immediately preceding the
new one (the latest earlier capture timestamp in the session), and no
other breadcrumb influences detection: the departure list is extended
exactly by `detectDeparture prev crumb`, a function of the previous and
new breadcrumbs alone. -/
theorem claim_C2_adjacent_breadcrumbs
    (s : MemStorage) (tid : String) (body : BreadcrumbBody) (crumbId depId : String)
    (now : Nat) (syncFails : Bool) (lat lng : ℚ) (prev : LocationBreadcrumb)
    (hlat : body.latitude = some lat) (hlng : body.longitude = some lng)
    (hsorted : List.Sorted crumbLe (s.locationBreadcrumbs.filter (fun b => b.timeEntryId == tid)))
    (hfresh : ∀ b ∈ s.locationBreadcrumbs.filter (fun b => b.timeEntryId == tid),
      b.timestamp ≤ now)
    (hprev : (s.locationBreadcrumbs.filter (fun b => b.timeEntryId == tid)).getLast? = some prev)
    (hcount : 2 ≤ (s.locationBreadcrumbs.filter (fun b => b.timeEntryId == tid)).length)
    (hdepid : ∀ d ∈ s.locationDepartures, d.id ≠ depId) :
    (∀ b ∈ getBreadcrumbsByTimeEntry s tid, b.timestamp ≤ prev.timestamp) ∧
    ((postBreadcrumb s tid body crumbId depId now syncFails).1.locationDepartures =
      s.locationDepartures ++
        detectDeparture prev
          { id := crumbId, timeEntryId := tid, timestamp := now, latitude := lat,
            longitude := lng, accuracy := body.accuracy, address := body.address }
          depId now syncFails) ∧
    (∀ dep ∈ detectDeparture prev
        { id := crumbId, timeEntryId := tid, timestamp := now, latitude := lat,
          longitude := lng, accuracy := body.accuracy, address := body.address }
        depId now syncFails,
      dep.fromLocation = { lat := prev.latitude, lng := prev.longitude,
                           address := orUnknown prev.address } ∧
      dep.toLocation = { lat := lat, lng := lng, address := orUnknown body.address }) := by
  refine ⟨?_, ?_, ?_⟩
  · have hlist : getBreadcrumbsByTimeEntry s tid =
        s.locationBreadcrumbs.filter (fun b => b.timeEntryId == tid) := by
      unfold getBreadcrumbsByTimeEntry
      exact List.Sorted.insertionSort_eq hsorted
    rw [hlist]
    exact sorted_all_le_getLast _ prev hsorted hprev
  · rw [postBreadcrumb_detect s tid body crumbId depId now syncFails lat lng prev
      hlat hlng hsorted hfresh hprev hdepid]
  · intro dep hdep
    simp only [detectDeparture] at hdep
    by_cases hth : exceedsThreshold ((lat - prev.latitude) ^ 2 + (lng - prev.longitude) ^ 2)
        = true
    · rw [if_pos hth] at hdep
      simp only [List.mem_singleton] at hdep
      subst hdep
      exact ⟨rfl, rfl⟩
    · rw [if_neg hth] at hdep
      cases hdep

/-- Witness for C2 at a concrete input: appending `bodyNear` to the
session holding `crumbA` and `crumbB` extends the departures exactly by
the detection outcome against `crumbB`, the latest prior breadcrumb. -/
theorem claim_C2_witness :
    (postBreadcrumb storageTwoCrumbs "t1" bodyNear "b3" "d9" 3000 true).1.locationDepartures =
      storageTwoCrumbs.locationDepartures ++
        detectDeparture crumbB
          { id := "b3", timeEntryId := "t1", timestamp := 3000,
            latitude := 40 + 105 / 100000, longitude := -75, accuracy := none,
            address := none }
          "d9" 3000 true :=
  (claim_C2_adjacent_breadcrumbs storageTwoCrumbs "t1" bodyNear "b3" "d9" 3000 true
    (40 + 105 / 100000) (-75) crumbB rfl rfl (by decide) (by decide) rfl (by decide)
    (by decide)).2.1

/-- Claim C10: every departure created by the detector substitutes the
literal string "Unknown location" for an absent (null) address in the
`from` or `to` snapshot. -/
theorem claim_C10_unknown_location
    (s : MemStorage) (tid : String) (body : BreadcrumbBody) (crumbId depId : String)
    (now : Nat) (syncFails : Bool) (lat lng : ℚ) (prev : LocationBreadcrumb)
    (hlat : body.latitude = some lat) (hlng : body.longitude = some lng)
    (hsorted : List.Sorted crumbLe (s.locationBreadcrumbs.filter (fun b => b.timeEntryId == tid)))
    (hfresh : ∀ b ∈ s.locationBreadcrumbs.filter (fun b => b.timeEntryId == tid),
      b.timestamp ≤ now)
    (hprev : (s.locationBreadcrumbs.filter (fun b => b.timeEntryId == tid)).getLast? = some prev)
    (hdepid : ∀ d ∈ s.locationDepartures, d.id ≠ depId)
    (hth : exceedsThreshold ((lat - prev.latitude) ^ 2 + (lng - prev.longitude) ^ 2) = true) :
    ∃ dep,
      (postBreadcrumb s tid body crumbId depId now syncFails).1.locationDepartures =
        s.locationDepartures ++ [dep] ∧
      (prev.address = none → dep.fromLocation.address = "Unknown location") ∧
      (body.address = none → dep.toLocation.address = "Unknown location") := by
  rw [postBreadcrumb_detect s tid body crumbId depId now syncFails lat lng prev
    hlat hlng hsorted hfresh hprev hdepid]
  refine ⟨{ id := depId, timeEntryId := tid, timestamp := now,
            fromLocation := { lat := prev.latitude, lng := prev.longitude,
                              address := orUnknown prev.address },
            toLocation := { lat := lat, lng := lng, address := orUnknown body.address },
            distanceSqDeg := (lat - prev.latitude) ^ 2 + (lng - prev.longitude) ^ 2,
            synced := !syncFails }, ?_, ?_, ?_⟩
  · simp only [detectDeparture]
    rw [if_pos hth]
  · intro hnone
    rw [hnone]
    rfl
  · intro hnone
    rw [hnone]
    rfl

/-- Witness for C10 at a concrete input: both `crumbA` and `bodyFar`
lack an address, and the created departure carries "Unknown location"
in both snapshots. -/
theorem claim_C10_witness :
    ∃ dep,
      (postBreadcrumb storageOneCrumb "t1" bodyFar "b2" "d1" 2000 true).1.locationDepartures =
        storageOneCrumb.locationDepartures ++ [dep] ∧
      (crumbA.address = none → dep.fromLocation.address = "Unknown location") ∧
      (bodyFar.address = none → dep.toLocation.address = "Unknown location") :=
  claim_C10_unknown_location storageOneCrumb "t1" bodyFar "b2" "d1" 2000 true
    (40 + 1 / 1000) (-75) crumbA rfl rfl (by decide) (by decide) rfl (by decide)
    (by rw [exceedsThreshold, decide_eq_true_iff]; norm_num [crumbA])

/-- Counterexample to C5 as stated: a breadcrumb append whose
referenced session is unknown (the storage has no time entries at all)
is not rejected — it succeeds and creates a breadcrumb. -/
theorem claim_C5_counterexample :
    getTimeEntry emptyStorage "missing" = none ∧
    (postBreadcrumb emptyStorage "missing" bodyOk "b1" "d1" 0 true).2 =
      Except.ok { id := "b1", timeEntryId := "missing", timestamp := 0, latitude := 40,
                  longitude := -75, accuracy := none, address := none } ∧
    (postBreadcrumb emptyStorage "missing" bodyOk "b1" "d1" 0 true).1.locationBreadcrumbs
      ≠ [] := by
  refine ⟨rfl, rfl, ?_⟩
  intro h
  simp [postBreadcrumb, bodyOk, createBreadcrumb, emptyStorage,
    getBreadcrumbsByTimeEntry] at h

/-- Claim C5 as amended: a breadcrumb-append request is rejected (with
a schema validation error, before any state mutation) exactly when the
body fails the insert schema — a missing latitude or longitude; the
referenced session is never looked up and coordinate magnitudes are
never checked, so a schema-valid append always succeeds and creates a
breadcrumb, even for an unknown or inactive session. -/
theorem claim_C5_validation
    (s : MemStorage) (tid : String) (body : BreadcrumbBody)
    (crumbId depId : String) (now : Nat) (syncFails : Bool) :
    ((body.latitude = none ∨ body.longitude = none) →
        postBreadcrumb s tid body crumbId depId now syncFails =
          (s, Except.error RouteError.validation)) ∧
    (∀ lat lng, body.latitude = some lat → body.longitude = some lng →
        (postBreadcrumb s tid body crumbId depId now syncFails).2 =
          Except.ok { id := crumbId, timeEntryId := tid, timestamp := now, latitude := lat,
                      longitude := lng, accuracy := body.accuracy,
                      address := body.address } ∧
        (postBreadcrumb s tid body crumbId depId now syncFails).1.locationBreadcrumbs =
          s.locationBreadcrumbs ++
            [{ id := crumbId, timeEntryId := tid, timestamp := now, latitude := lat,
               longitude := lng, accuracy := body.accuracy, address := body.address }]) := by
  obtain ⟨blat, blng, bacc, baddr⟩ := body
  constructor
  · rintro (h | h)
    · simp only at h
      subst h
      rfl
    · simp only at h
      subst h
      cases blat <;> rfl
  · intro lat lng hlat hlng
    simp only at hlat hlng
    subst hlat
    subst hlng
    constructor
    · unfold postBreadcrumb
      dsimp only
      split
      · split
        · rfl
        · rfl
      · rfl
    · unfold postBreadcrumb
      dsimp only
      split
      · split
        · split <;> rfl
        · rfl
      · rfl

/-- Witness for the amended C5 at a concrete input: a body missing its
latitude is rejected with a validation error and the state is
untouched. -/
theorem claim_C5_witness :
    postBreadcrumb emptyStorage "t9" bodyBad "b1" "d1" 5 true =
      (emptyStorage, Except.error RouteError.validation) :=
  (claim_C5_validation emptyStorage "t9" bodyBad "b1" "d1" 5 true).1 (Or.inl rfl)

/-- Claim C6: a clock-in attempt by a worker who already has an active
session fails with a conflict and creates nothing; with no active
session it creates a new active entry — and clock-in preserves the
at-most-one-active-session-per-worker invariant. -/
theorem claim_C6_single_active
    (s : MemStorage) (w : String) (loc : Option LocationSnapshot) (newId : String)
    (now : Nat) :
    (getActiveTimeEntry s w ≠ none →
        clockIn s w loc newId now = (s, Except.error RouteError.conflict)) ∧
    (getActiveTimeEntry s w = none →
        clockIn s w loc newId now =
          ({ s with timeEntries := s.timeEntries ++
              [{ id := newId, employeeId := w, clockInTime := now, clockOutTime := none,
                 clockInLocation := loc, clockOutLocation := none, totalHours := none,
                 isActive := true }] },
           Except.ok
             { id := newId, employeeId := w, clockInTime := now, clockOutTime := none,
               clockInLocation := loc, clockOutLocation := none, totalHours := none,
               isActive := true })) ∧
    (atMostOneActive s → atMostOneActive (clockIn s w loc newId now).1) := by
  refine ⟨?_, ?_, ?_⟩
  · intro hne
    cases hact : getActiveTimeEntry s w with
    | none => exact absurd hact hne
    | some e =>
        unfold clockIn
        rw [hact]
  · intro hnone
    unfold clockIn
    rw [hnone]
    rfl
  · intro hmono
    cases hact : getActiveTimeEntry s w with
    | some e =>
        unfold clockIn
        rw [hact]
        exact hmono
    | none =>
        unfold clockIn
        rw [hact]
        intro w'
        simp only [createTimeEntry]
        rw [List.filter_append]
        by_cases hw : w' = w
        · subst hw
          have hempty : s.timeEntries.filter (isActiveEntryFor w') = [] := by
            rw [List.filter_eq_nil_iff]
            unfold getActiveTimeEntry at hact
            exact List.find?_eq_none.1 hact
          rw [hempty]
          simp [isActiveEntryFor]
        · have hnew : isActiveEntryFor w'
              { id := newId, employeeId := w, clockInTime := now, clockOutTime := none,
                clockInLocation := loc, clockOutLocation := none, totalHours := none,
                isActive := true } = false := by
            simp only [isActiveEntryFor]
            simp [beq_iff_eq, Ne.symm hw]
          simp only [List.filter_cons, hnew, List.filter_nil]
          simpa using hmono w'

/-- Witness for C6 at a concrete input: clocking in on an empty storage
creates the active entry `openEntry`, and the invariant is preserved. -/
theorem claim_C6_witness :
    clockIn emptyStorage "e1" none "t1" 0 = (storageOpenEntry, Except.ok openEntry) ∧
    atMostOneActive (clockIn emptyStorage "e1" none "t1" 0).1 := by
  have h := claim_C6_single_active emptyStorage "e1" none "t1" 0
  constructor
  · rw [h.2.1 rfl]
    rfl
  · exact h.2.2 (by intro w; simp [emptyStorage])

/-- `toFixed(2)` produces a value with at most two decimal places. -/
theorem toFixed2_mul_den (q : ℚ) : (toFixed2 q * 100).den = 1 := by
  rw [toFixed2, div_mul_cancel₀]
  · exact Rat.den_intCast _
  · norm_num

/-- `toFixed(2)` is within half of the last kept decimal place. -/
theorem toFixed2_close (q : ℚ) : |toFixed2 q - q| ≤ 1 / 200 := by
  rw [toFixed2, abs_le]
  have h1 : ((⌊q * 100 + 1 / 2⌋ : ℤ) : ℚ) ≤ q * 100 + 1 / 2 := Int.floor_le _
  have h2 : q * 100 + 1 / 2 < (⌊q * 100 + 1 / 2⌋ : ℤ) + 1 := Int.lt_floor_add_one _
  constructor
  · linarith
  · linarith

/-- Claim C7: clocking out an open session closes it with total hours
equal to `(closeTime − openTime)` in hours, rounded to two decimal
places (a two-decimal value within half a hundredth of the exact
duration); clocking out an already-closed session fails with a conflict
and leaves the state unchanged. -/
theorem claim_C7_clock_out (s : MemStorage) (id : String) (loc : Option LocationSnapshot)
    (now : Nat) :
    (∀ e, getTimeEntry s id = some e → e.clockOutTime = none →
        clockOut s id loc now =
          ({ s with timeEntries := s.timeEntries.map (fun x => if x.id == id then
              { e with clockOutTime := some now, clockOutLocation := loc,
                       totalHours := some (toFixed2 (((now : ℚ) - (e.clockInTime : ℚ)) /
                         (1000 * 60 * 60))),
                       isActive := false } else x) },
           Except.ok
             { e with clockOutTime := some now, clockOutLocation := loc,
                      totalHours := some (toFixed2 (((now : ℚ) - (e.clockInTime : ℚ)) /
                        (1000 * 60 * 60))),
                      isActive := false }) ∧
        (toFixed2 (((now : ℚ) - (e.clockInTime : ℚ)) / (1000 * 60 * 60)) * 100).den = 1 ∧
        |toFixed2 (((now : ℚ) - (e.clockInTime : ℚ)) / (1000 * 60 * 60)) -
            ((now : ℚ) - (e.clockInTime : ℚ)) / (1000 * 60 * 60)| ≤ 1 / 200) ∧
    (∀ e t0, getTimeEntry s id = some e → e.clockOutTime = some t0 →
        clockOut s id loc now = (s, Except.error RouteError.conflict)) := by
  constructor
  · intro e he hopen
    refine ⟨?_, toFixed2_mul_den _, toFixed2_close _⟩
    unfold clockOut
    rw [he]
    dsimp only
    rw [hopen]
    dsimp only
    unfold updateTimeEntry
    unfold getTimeEntry at he
    rw [he]
  · intro e t0 he hclosed
    unfold clockOut
    rw [he]
    dsimp only
    rw [hclosed]

/-- Witness for C7 at a concrete input: clocking out `openEntry` after
two hours yields total hours `toFixed2 2`. -/
theorem claim_C7_witness :
    (clockOut storageOpenEntry "t1" none 7200000).2 =
      Except.ok { id := "t1", employeeId := "e1", clockInTime := 0,
                  clockOutTime := some 7200000, clockInLocation := none,
                  clockOutLocation := none,
                  totalHours := some (toFixed2 (((7200000 : ℚ) - (0 : ℚ)) / (1000 * 60 * 60))),
                  isActive := false } := by
  have h := (claim_C7_clock_out storageOpenEntry "t1" none 7200000).1 openEntry rfl rfl
  rw [h.1]
  norm_num [openEntry]

/-- Counterexample to C8 as stated: the Drizzle breadcrumb listing
(`orderBy desc(timestamp)`) returns two breadcrumbs with distinct
timestamps newest-first, which is not non-decreasing. -/
theorem claim_C8_counterexample :
    ¬ List.Sorted crumbLe (drizzleGetBreadcrumbsByTimeEntry [crumbA, crumbB] "t1") := by
  intro h
  have hlist : drizzleGetBreadcrumbsByTimeEntry [crumbA, crumbB] "t1" = [crumbB, crumbA] := by
    rfl
  rw [hlist] at h
  have := List.rel_of_sorted_cons h crumbA (List.mem_singleton_self crumbA)
  simp [crumbLe, crumbA, crumbB] at this

/-- Claim C8 as amended: the in-memory breadcrumb listing returns a
session's breadcrumbs in non-decreasing capture-timestamp order, while
the Drizzle listing returns them in non-increasing (descending,
newest-first) order. -/
theorem claim_C8_listing_order :
    (∀ (s : MemStorage) (tid : String),
        List.Sorted crumbLe (getBreadcrumbsByTimeEntry s tid)) ∧
    (∀ (rows : List LocationBreadcrumb) (tid : String),
        List.Sorted crumbGe (drizzleGetBreadcrumbsByTimeEntry rows tid)) := by
  constructor
  · intro s tid
    exact List.sorted_insertionSort crumbLe _
  · intro rows tid
    exact List.sorted_insertionSort crumbGe _

/-- Claim C9: `getUnsyncedDepartures` returns exactly the departures
with `synced = false`; on a store whose departures are in
non-decreasing timestamp order (the order creation maintains, since
each new departure carries the current, latest timestamp and keyed
updates keep positions) the result is oldest-first, and both
`createDeparture` (with a fresh latest timestamp) and
`markDepartureSynced` preserve that order. -/
theorem claim_C9_unsynced_departures (s : MemStorage)
    (hsorted : List.Sorted depLe s.locationDepartures) :
    getUnsyncedDepartures s = s.locationDepartures.filter (fun d => !d.synced) ∧
    List.Sorted depLe (getUnsyncedDepartures s) ∧
    (∀ (newId : String) (now : Nat) (d : InsertDeparture),
        (∀ x ∈ s.locationDepartures, x.timestamp ≤ now) →
        List.Sorted depLe ((createDeparture s newId now d).1.locationDepartures)) ∧
    (∀ id, List.Sorted depLe ((markDepartureSynced s id).locationDepartures)) := by
  refine ⟨rfl, ?_, ?_, ?_⟩
  · exact List.Pairwise.filter _ hsorted
  · intro newId now d hts
    unfold createDeparture
    dsimp only
    refine List.pairwise_append.2 ⟨hsorted, List.pairwise_singleton _ _, ?_⟩
    intro a ha b hb
    simp only [List.mem_singleton] at hb
    subst hb
    exact hts a ha
  · intro id
    unfold markDepartureSynced
    dsimp only
    have hts : ∀ x : LocationDeparture,
        ((if x.id == id then { x with synced := true } else x) : LocationDeparture).timestamp
          = x.timestamp := by
      intro x
      by_cases hx : x.id = id <;> simp [hx]
    refine List.Pairwise.map _ ?_ hsorted
    intro a b hab
    show depLe _ _
    unfold depLe
    rw [hts a, hts b]
    exact hab

/-- Witness for C9 at a concrete input: on the sorted two-departure
store, the unsynced listing is exactly the `synced = false` filter and
is itself sorted oldest-first. -/
theorem claim_C9_witness :
    getUnsyncedDepartures storageTwoDeps =
      storageTwoDeps.locationDepartures.filter (fun d => !d.synced) ∧
    List.Sorted depLe (getUnsyncedDepartures storageTwoDeps) := by
  have h := claim_C9_unsynced_departures storageTwoDeps (by decide)
  exact ⟨h.1, h.2.1⟩

/-- A single storage operation never un-syncs a departure: if the store
holds a synced departure with a given id, it still does afterwards. -/
theorem applyOp_syncedIn (s : MemStorage) (op : StorageOp) (id : String)
    (h : syncedIn s id) : syncedIn (applyOp s op) id := by
  obtain ⟨d, hd, hid, hsy⟩ := h
  cases op with
  | createTimeEntry newId t => exact ⟨d, hd, hid, hsy⟩
  | updateTimeEntry uid patch =>
      simp only [applyOp, updateTimeEntry]
      split
      · exact ⟨d, hd, hid, hsy⟩
      · exact ⟨d, hd, hid, hsy⟩
  | createBreadcrumb newId now b => exact ⟨d, hd, hid, hsy⟩
  | createDeparture newId now dd => exact ⟨d, List.mem_append_left _ hd, hid, hsy⟩
  | markDepartureSynced mid =>
      refine ⟨if d.id == mid then { d with synced := true } else d, ?_, ?_, ?_⟩
      · exact List.mem_map_of_mem _ hd
      · by_cases hc : d.id = mid
        · simpa [hc] using hc ▸ hid
        · simpa [hc] using hid
      · by_cases hc : d.id = mid
        · simp [hc]
        · simpa [hc] using hsy

/-- Claim C4: across every sequence of storage operations, a
departure's `synced` flag only moves from false to true and never
back; marking an already-synced departure again is a no-op on the
state; and every newly created departure starts with `synced = false`. -/
theorem claim_C4_synced_monotonic :
    (∀ (ops : List StorageOp) (s : MemStorage) (id : String),
        syncedIn s id → syncedIn (runOps s ops) id) ∧
    (∀ (s : MemStorage) (id : String),
        (∀ d ∈ s.locationDepartures, d.id = id → d.synced = true) →
        markDepartureSynced s id = s) ∧
    (∀ (s : MemStorage) (newId : String) (now : Nat) (d : InsertDeparture),
        (createDeparture s newId now d).2.synced = false) := by
  refine ⟨?_, ?_, ?_⟩
  · intro ops
    induction ops with
    | nil => intro s id h; exact h
    | cons op rest ih =>
        intro s id h
        exact ih (applyOp s op) id (applyOp_syncedIn s op id h)
  · intro s id h
    unfold markDepartureSynced
    rw [mark_map_eq_self _ _ h]
  · intro s newId now d
    rfl

/-- Witness for C4 at a concrete input: the synced departure `depB`
stays synced across a mark of the other departure, marking the
already-synced `depB` again does not change the store, and a fresh
departure starts unsynced. -/
theorem claim_C4_witness :
    syncedIn (runOps storageTwoDeps [StorageOp.markDepartureSynced "d1"]) "d2" ∧
    markDepartureSynced { emptyStorage with locationDepartures := [depB] } "d2" =
      { emptyStorage with locationDepartures := [depB] } := by
  constructor
  · exact claim_C4_synced_monotonic.1 [StorageOp.markDepartureSynced "d1"] storageTwoDeps "d2"
      ⟨depB, by simp [storageTwoDeps, emptyStorage], rfl, rfl⟩
  · exact claim_C4_synced_monotonic.2.1 _ "d2" (by decide)

/-- The sync loop records one result per processed departure, in
order: success with no error when the publish succeeds, failure with
the triggering error message otherwise. -/
theorem bulkSyncLoop_results (fails : String → Option String) (l : List LocationDeparture)
    (s : MemStorage) (acc : List SyncResult) :
    (bulkSyncLoop fails l s acc).2 = acc ++ l.map (fun d =>
      match fails d.id with
      | none => { id := d.id, success := true, error := none }
      | some msg => { id := d.id, success := false, error := some msg }) := by
  induction l generalizing s acc with
  | nil => simp [bulkSyncLoop]
  | cons d rest ih =>
      cases hf : fails d.id with
      | none =>
          simp only [bulkSyncLoop, hf]
          rw [ih]
          simp [hf, List.append_assoc]
      | some msg =>
          simp only [bulkSyncLoop, hf]
          rw [ih]
          simp [hf, List.append_assoc]

/-- The sync loop's final state marks exactly the processed departures
whose publish succeeded. -/
theorem bulkSyncLoop_state (fails : String → Option String) (l : List LocationDeparture)
    (s : MemStorage) (acc : List SyncResult) :
    (bulkSyncLoop fails l s acc).1 =
      { s with locationDepartures := s.locationDepartures.map (fun x =>
          if (l.filter (fun d => (fails d.id).isNone)).any (fun d => d.id == x.id)
          then { x with synced := true } else x) } := by
  induction l generalizing s acc with
  | nil =>
      simp only [bulkSyncLoop, List.filter_nil, List.any_nil, Bool.false_eq_true, if_false]
      simp
  | cons d rest ih =>
      cases hf : fails d.id with
      | some msg =>
          simp only [bulkSyncLoop, hf]
          rw [ih]
          have hfil : (d :: rest).filter (fun x => (fails x.id).isNone)
              = rest.filter (fun x => (fails x.id).isNone) := by
            simp [List.filter_cons, hf]
          rw [hfil]
      | none =>
          simp only [bulkSyncLoop, hf]
          rw [ih]
          have hfil : (d :: rest).filter (fun x => (fails x.id).isNone)
              = d :: rest.filter (fun x => (fails x.id).isNone) := by
            simp [List.filter_cons, hf]
          rw [hfil]
          unfold markDepartureSynced
          dsimp only
          have hmaps : (s.locationDepartures.map (fun d1 =>
              if d1.id == d.id then { d1 with synced := true } else d1)).map
                (fun x => if (rest.filter (fun d2 => (fails d2.id).isNone)).any
                    (fun d2 => d2.id == x.id) then { x with synced := true } else x)
              = s.locationDepartures.map (fun x =>
                  if ((d :: rest.filter (fun d2 => (fails d2.id).isNone)).any
                      (fun d2 => d2.id == x.id)) then { x with synced := true } else x) := by
            rw [List.map_map]
            refine List.map_congr_left ?_
            intro x hx
            simp only [Function.comp]
            by_cases hxd : x.id = d.id
            · simp [hxd, List.any_cons]
            · simp [hxd, Ne.symm hxd, List.any_cons]
          rw [hmaps]

/-- Claim C3: a bulk-sync over the N unsynced departures attempts each
of them (one result per record, failures carrying the record id and the
triggering error), answers `{synced: N−K, failed: K}` where K of the
publishes fail, and afterwards exactly those K departures remain
unsynced. -/
theorem claim_C3_bulk_sync (s : MemStorage) (fails : String → Option String) :
    (syncDepartures s fails).2.1.length = (getUnsyncedDepartures s).length ∧
    (syncDepartures s fails).2.1 = (getUnsyncedDepartures s).map (fun d =>
      match fails d.id with
      | none => { id := d.id, success := true, error := none }
      | some msg => { id := d.id, success := false, error := some msg }) ∧
    (syncDepartures s fails).2.2.synced =
      (getUnsyncedDepartures s).length -
        ((getUnsyncedDepartures s).filter (fun d => (fails d.id).isSome)).length ∧
    (syncDepartures s fails).2.2.failed =
      ((getUnsyncedDepartures s).filter (fun d => (fails d.id).isSome)).length ∧
    getUnsyncedDepartures (syncDepartures s fails).1 =
      (getUnsyncedDepartures s).filter (fun d => (fails d.id).isSome) := by
  have hres := bulkSyncLoop_results fails (getUnsyncedDepartures s) s []
  have hst := bulkSyncLoop_state fails (getUnsyncedDepartures s) s []
  have hresults : (syncDepartures s fails).2.1 = (getUnsyncedDepartures s).map (fun d =>
      match fails d.id with
      | none => { id := d.id, success := true, error := none }
      | some msg => { id := d.id, success := false, error := some msg }) := by
    simp only [syncDepartures]
    rw [hres]
    simp
  have hsucc : ∀ d : LocationDeparture,
      ((fun r : SyncResult => r.success) ∘ (fun d =>
        match fails d.id with
        | none => ({ id := d.id, success := true, error := none } : SyncResult)
        | some msg => { id := d.id, success := false, error := some msg })) d
        = (fails d.id).isNone := by
    intro d
    cases hf : fails d.id <;> simp [hf]
  have hfail : ∀ d : LocationDeparture,
      ((fun r : SyncResult => !r.success) ∘ (fun d =>
        match fails d.id with
        | none => ({ id := d.id, success := true, error := none } : SyncResult)
        | some msg => { id := d.id, success := false, error := some msg })) d
        = (fails d.id).isSome := by
    intro d
    cases hf : fails d.id <;> simp [hf]
  have hlen := @List.length_eq_length_filter_add _ (getUnsyncedDepartures s)
    (fun d => (fails d.id).isSome)
  have hnotsome : (getUnsyncedDepartures s).filter (fun d => !(fails d.id).isSome)
      = (getUnsyncedDepartures s).filter (fun d => (fails d.id).isNone) := by
    refine List.filter_congr ?_
    intro x hx
    cases hf : fails x.id <;> simp [hf]
  rw [hnotsome] at hlen
  refine ⟨?_, hresults, ?_, ?_, ?_⟩
  · rw [hresults, List.length_map]
  · show ((syncDepartures s fails).2.1.filter (fun r => r.success)).length = _
    rw [hresults, List.filter_map, List.length_map,
      List.filter_congr (fun x _ => hsucc x)]
    omega
  · show ((syncDepartures s fails).2.1.filter (fun r => !r.success)).length = _
    rw [hresults, List.filter_map, List.length_map,
      List.filter_congr (fun x _ => hfail x)]
  · have hfinal : (syncDepartures s fails).1 =
        { s with locationDepartures := s.locationDepartures.map (fun x =>
            if ((getUnsyncedDepartures s).filter (fun d => (fails d.id).isNone)).any
                (fun d => d.id == x.id)
            then { x with synced := true } else x) } := by
      simp only [syncDepartures]
      exact hst
    rw [hfinal]
    show (s.locationDepartures.map (fun x =>
        if ((getUnsyncedDepartures s).filter (fun d => (fails d.id).isNone)).any
            (fun d => d.id == x.id)
        then { x with synced := true } else x)).filter (fun d => !d.synced) =
      (getUnsyncedDepartures s).filter (fun d => (fails d.id).isSome)
    rw [List.filter_map]
    have hpt : ∀ x ∈ s.locationDepartures,
        ((fun d : LocationDeparture => !d.synced) ∘ (fun x =>
          if ((getUnsyncedDepartures s).filter (fun d => (fails d.id).isNone)).any
              (fun d => d.id == x.id)
          then { x with synced := true } else x)) x
          = (!x.synced && (fails x.id).isSome) := by
      intro x hx
      simp only [Function.comp]
      cases hany : ((getUnsyncedDepartures s).filter (fun d => (fails d.id).isNone)).any
          (fun d => d.id == x.id) with
      | true =>
          obtain ⟨y, hy, hyid⟩ := List.any_eq_true.1 hany
          have hyn : (fails y.id).isNone = true := (List.mem_filter.1 hy).2
          have hyx : y.id = x.id := beq_iff_eq.1 hyid
          rw [hyx] at hyn
          have hxs : (fails x.id).isSome = false := by
            cases hf : fails x.id
            · rfl
            · rw [hf] at hyn; cases hyn
          simp [hany, hxs]
      | false =>
          by_cases hsy : x.synced
          · simp [hany, hsy]
          · have hxs : (fails x.id).isSome = true := by
              by_contra hns
              have hnone : (fails x.id).isNone = true := by
                cases hf : fails x.id
                · rfl
                · rw [hf] at hns; simp at hns
              have hxU : x ∈ (getUnsyncedDepartures s).filter
                  (fun d => (fails d.id).isNone) := by
                refine List.mem_filter.2 ⟨?_, hnone⟩
                exact List.mem_filter.2 ⟨hx, by simp [hsy]⟩
              have : ((getUnsyncedDepartures s).filter (fun d => (fails d.id).isNone)).any
                  (fun d => d.id == x.id) = true :=
                List.any_eq_true.2 ⟨x, hxU, beq_self_eq_true x.id⟩
              rw [hany] at this
              cases this
            simp [hany, hsy, hxs]
    rw [List.filter_congr hpt]
    have hFid : ∀ x ∈ s.locationDepartures.filter
        (fun x => !x.synced && (fails x.id).isSome),
        (fun x =>
          if ((getUnsyncedDepartures s).filter (fun d => (fails d.id).isNone)).any
              (fun d => d.id == x.id)
          then ({ x with synced := true } : LocationDeparture) else x) x = x := by
      intro x hx
      have hxp := (List.mem_filter.1 hx).2
      have hxsome : (fails x.id).isSome = true := by
        simp only [Bool.and_eq_true] at hxp
        exact hxp.2
      refine if_neg ?_
      intro hany
      obtain ⟨y, hy, hyid⟩ := List.any_eq_true.1 hany
      have hyn : (fails y.id).isNone = true := (List.mem_filter.1 hy).2
      have hyx : y.id = x.id := beq_iff_eq.1 hyid
      rw [hyx] at hyn
      cases hf : fails x.id
      · rw [hf] at hxsome; cases hxsome
      · rw [hf] at hyn; cases hyn
    rw [List.map_congr_left hFid]
    simp only [List.map_id']
    show s.locationDepartures.filter _ =
      (s.locationDepartures.filter (fun d => !d.synced)).filter
        (fun d => (fails d.id).isSome)
    rw [List.filter_filter]
    refine List.filter_congr ?_
    intro x hx
    rw [Bool.and_comm]

end TimeTracker
